import Mathlib

/-!
Verification of the language/speaker normalization and response-shape
reconciliation layer of the translation/TTS proxy (src/app.py).

The two request handlers `translate_text` and `text_to_speech` are embedded
as pure Lean functions.  The outcome of the single outbound HTTP call made
by each handler is passed in explicitly as a `NetOutcome` value (a normal
HTTP response with status code and body, a timeout exception, a connection
error, or any other unexpected exception); the secondary audio-URL fetch
of the TTS handler gets its own `NetOutcome` argument.  Each handler
returns the JSON response it would send to the client (with its HTTP
status) together with a Boolean recording whether the outbound provider
call was issued at all, so that the claims of the form "fails ... before
any network call" are expressible.
-/

namespace App

/-- The result of parsing a provider response body as JSON, as the Python
handlers observe it: a JSON object (modelled as an association list of
string keys to string values, which is the shape all code paths read), a
bare JSON string, or any other JSON value (tracked by its Python type name
and its `str(...)` rendering). -/
inductive ProviderJson where
  | dict (entries : List (String × String))
  | str (s : String)
  | other (ty : String) (rep : String)
deriving DecidableEq, Repr

/-- Outcome of one `requests.post` / `requests.get` call: a response with a
status code and a body of type `β`, a `requests.exceptions.Timeout`, a
`requests.exceptions.ConnectionError`, or any other exception carrying its
`str(e)` message. -/
inductive NetOutcome (β : Type) where
  | response (status : Nat) (body : β)
  | timeout
  | connFailure
  | exc (msg : String)
deriving DecidableEq, Repr

/-- Body of a provider response as seen by `translate_text`: the result of
`response.json()` (`.error msg` models the `ValueError` raised on a
non-JSON body, carrying its message) and `response.text`. -/
structure RespBody where
  jsonParse : Except String ProviderJson
  text : String

/-- Python `dict.get(k)` on a string-valued JSON object (first matching
key; provider JSON objects have unique keys). -/
def dGet : List (String × String) → String → Option String
  | [], _ => none
  | p :: rest, k => if p.1 = k then some p.2 else dGet rest k

/-- Python `dict.get(k, dflt)`: the stored value when the key is present
(even when that value is the empty string), the default otherwise. -/
def dGetD (entries : List (String × String)) (k dflt : String) : String :=
  (dGet entries k).getD dflt

/-- The GhanaNLP language code mapping table of `translate_text`
(src/app.py lines 45-54). -/
def lang_map : List (String × String) :=
  [("en", "en"),
   ("tw", "tw"),
   ("twi_akuapem", "ak"),
   ("ewe", "ee"),
   ("ga", "gaa"),
   ("dagbani", "dag"),
   ("fante", "fat"),
   ("kikuyu", "ki")]

/-- `lang_map.get(code, code)` (src/app.py lines 56-57): the provider code
for a mapped client code, the input itself otherwise. -/
def langMapGet (code : String) : String :=
  dGetD lang_map code code

/-- Extraction of the translated text from the parsed 200-response JSON
(src/app.py lines 83-88): a dict is read under `out`, then `translation`,
then `translatedText`; a bare string is taken as is; any other JSON value
is rendered with `str(...)`. -/
def translatedOf : ProviderJson → String
  | .dict e => dGetD e "out" (dGetD e "translation" (dGetD e "translatedText" ""))
  | .str s => s
  | .other _ rep => rep

/-- The default error message for a non-200 translate response
(src/app.py line 105). -/
def statusMsg (s : Nat) : String :=
  "API returned status " ++ toString s

/-- Error-message extraction for a non-200 translate response
(src/app.py lines 105-110): prefer `error` then `message` from the parsed
JSON object; when the body is not a JSON object (parse failure, or a
non-dict value whose `.get` raises, both caught by the bare `except`),
fall back to `response.text or error_msg`. -/
def translateErrMsg (body : RespBody) (s : Nat) : String :=
  match body.jsonParse with
  | .ok (.dict e) => dGetD e "error" (dGetD e "message" (statusMsg s))
  | _ => if body.text = "" then statusMsg s else body.text

/-- The JSON body (with HTTP status) that `translate_text` sends back to
the client: either the success payload of src/app.py lines 96-103 (always
HTTP 200 with `success: true`), or an error payload `{error, details}`
with its status (`details` is absent from the `Missing text` response). -/
inductive TranslateResponse where
  | success (translated_text original_text source_language target_language provider : String)
  | failure (error : String) (details : Option String) (status : Nat)
deriving DecidableEq, Repr

/-- The HTTP status carried by a `TranslateResponse` (success responses
are plain `jsonify`, i.e. HTTP 200). -/
def translateStatus : TranslateResponse → Nat
  | .success _ _ _ _ _ => 200
  | .failure _ _ s => s

/-- The `/api/translate` handler (src/app.py lines 22-132).  `key` is the
process-wide `GHANANLP_API_KEY` (empty when unconfigured); `text`,
`source_lang`, `target_lang` are the request fields after their defaults;
`net` is the outcome of the `requests.post` call.  The second component is
`true` exactly when that outbound call was issued. -/
def translate_text (key text source_lang target_lang : String)
    (net : NetOutcome RespBody) : TranslateResponse × Bool :=
  if text = "" then
    (.failure "Missing text" none 400, false)
  else if key = "" then
    (.failure "API key not configured"
      (some "Please add your GhanaNLP API key to .env file. Get one at https://translation.ghananlp.org")
      401, false)
  else
    match net with
    | .response s body =>
      if s = 200 then
        match body.jsonParse with
        | .ok j =>
          let translated_text := translatedOf j
          if translated_text = "" then
            (.failure "Empty translation received"
              (some "The API returned an empty translation. Please try again.") 500, true)
          else
            (.success translated_text text source_lang target_lang "GhanaNLP", true)
        | .error m =>
          (.failure m (some "An unexpected error occurred. Please try again.") 500, true)
      else
        (.failure (translateErrMsg body s)
          (some "Please check your API key and try again.") s, true)
    | .timeout =>
      (.failure "Translation request timed out"
        (some "The server took too long to respond. Please try again.") 504, true)
    | .connFailure =>
      (.failure "Connection error"
        (some "Unable to connect to GhanaNLP API. Please check your internet connection.") 503, true)
    | .exc m =>
      (.failure m (some "An unexpected error occurred. Please try again.") 500, true)

/-- Whether `pat` occurs at the start of `l` (character-wise). -/
def startsWithL : List Char → List Char → Bool
  | [], _ => true
  | _ :: _, [] => false
  | a :: as, b :: bs => a == b && startsWithL as bs

/-- Python `needle in hay` on strings: substring containment. -/
def hasSubL (needle : List Char) : List Char → Bool
  | [] => startsWithL needle []
  | c :: rest => startsWithL needle (c :: rest) || hasSubL needle rest

/-- Python `needle in hay` on strings. -/
def strContains (hay needle : String) : Bool :=
  hasSubL needle.toList hay.toList

/-- Python `str.lower()` on one character, for the ASCII range that
content-type header values are drawn from. -/
def lowerChar (c : Char) : Char :=
  if 65 ≤ c.toNat ∧ c.toNat ≤ 90 then Char.ofNat (c.toNat + 32) else c

/-- Python `str.lower()` on a header value (ASCII lowering). -/
def lowerStr (s : String) : String :=
  String.mk (s.toList.map lowerChar)

/-- The standard base64 alphabet. -/
def b64Alphabet : List Char :=
  "ABCDEFGHIJKLMNOPQRSTUVWXYZabcdefghijklmnopqrstuvwxyz0123456789+/".toList

/-- The base64 digit for a 6-bit value. -/
def b64Char (n : Nat) : Char :=
  b64Alphabet.getD n 'A'

/-- `base64.b64encode(bytes).decode('utf-8')`: RFC 4648 base64 with `=`
padding, over a byte list (each entry < 256). -/
def b64encode : List Nat → String
  | [] => ""
  | [a] => String.mk [b64Char (a / 4), b64Char (a % 4 * 16), '=', '=']
  | [a, b] => String.mk [b64Char (a / 4), b64Char (a % 4 * 16 + b / 16),
      b64Char (b % 16 * 4), '=']
  | a :: b :: c :: rest =>
      String.mk [b64Char (a / 4), b64Char (a % 4 * 16 + b / 16),
        b64Char (b % 16 * 4 + c / 64), b64Char (c % 64)] ++ b64encode rest

/-- The speaker mapping of `text_to_speech` (src/app.py lines 175-179):
per-language ordered speaker lists. -/
def speaker_map : List (String × List String) :=
  [("tw", ["twi_speaker_4", "twi_speaker_5", "twi_speaker_6",
           "twi_speaker_7", "twi_speaker_8", "twi_speaker_9"]),
   ("ewe", ["ewe_speaker_3", "ewe_speaker_4"]),
   ("kikuyu", ["kikuyu_speaker_1", "kikuyu_speaker_5"])]

/-- Lookup in `speaker_map`; `none` models Python `language not in
speaker_map`. -/
def speakerMapGet : List (String × List String) → String → Option (List String)
  | [], _ => none
  | p :: rest, k => if p.1 = k then some p.2 else speakerMapGet rest k

/-- The TTS language code mapping of `text_to_speech`
(src/app.py lines 182-186); looked up with identity fallback. -/
def tts_lang_map : List (String × String) :=
  [("tw", "tw"), ("ewe", "ee"), ("kikuyu", "ki")]

/-- Body of a provider response as seen by `text_to_speech`: the
`Content-Type` header (as `headers.get` returns it, before lowering), the
raw bytes of `response.content`, the result of `response.json()`, and
`response.text`. -/
structure TTSBody where
  contentTypeHeader : Option String
  content : List Nat
  jsonParse : Except String ProviderJson
  text : String

/-- The audio-detection test of src/app.py line 222: content type (lowered)
contains `audio` or `octet-stream`, or the body exceeds 1000 bytes. -/
def audioDetected (body : TTSBody) : Bool :=
  strContains (lowerStr (body.contentTypeHeader.getD "")) "audio" ||
  strContains (lowerStr (body.contentTypeHeader.getD "")) "octet-stream" ||
  decide (body.content.length > 1000)

/-- Inline-audio extraction from the parsed JSON object
(src/app.py line 240): `audio`, then `audio_content`, then `audio_base64`. -/
def ttsAudioData (e : List (String × String)) : String :=
  dGetD e "audio" (dGetD e "audio_content" (dGetD e "audio_base64" ""))

/-- Redirect-URL extraction from the parsed JSON object
(src/app.py line 241): `audio_url`, then `url`. -/
def ttsAudioUrl (e : List (String × String)) : String :=
  dGetD e "audio_url" (dGetD e "url" "")

/-- The default error message for a non-200 TTS response
(src/app.py line 287). -/
def ttsStatusMsg (s : Nat) : String :=
  "TTS API returned status " ++ toString s

/-- Error-message extraction for a non-200 TTS response other than
401/403 (src/app.py lines 287-292): prefer `error` then `message` from
the parsed JSON object; otherwise (parse failure or non-dict, both caught
by the bare `except`) `response.text[:200] if response.text else
error_msg`. -/
def ttsErrMsg (body : TTSBody) (s : Nat) : String :=
  match body.jsonParse with
  | .ok (.dict e) => dGetD e "error" (dGetD e "message" (ttsStatusMsg s))
  | _ => if body.text = "" then ttsStatusMsg s else body.text.take 200

/-- The JSON body (with HTTP status) that `text_to_speech` sends back to
the client: the success payload of src/app.py lines 228-235 / 244-251 /
258-265 (always HTTP 200 with `success: true`), or an error payload
`{error, details, use_browser_tts?}` with its status (`details` and the
`use_browser_tts` flag are present only where the source includes them). -/
inductive TTSResponse where
  | success (audio_data audio_format language speaker_id text : String)
  | failure (error : String) (details : Option String)
      (use_browser_tts : Option Bool) (status : Nat)
deriving DecidableEq, Repr

/-- The HTTP status carried by a `TTSResponse`. -/
def ttsStatus : TTSResponse → Nat
  | .success _ _ _ _ _ => 200
  | .failure _ _ _ s => s

/-- Whether a `TTSResponse` is the success payload. -/
def ttsIsSuccess : TTSResponse → Bool
  | .success _ _ _ _ _ => true
  | .failure _ _ _ _ => false

/-- The `audio_format` field of a success payload. -/
def ttsAudioFormat : TTSResponse → Option String
  | .success _ fmt _ _ _ => some fmt
  | .failure _ _ _ _ => none

/-- The `use_browser_tts` field of a failure payload, when present. -/
def ttsBrowserFlag : TTSResponse → Option Bool
  | .success _ _ _ _ _ => none
  | .failure _ _ flag _ => flag

/-- The `/api/text-to-speech` handler (src/app.py lines 149-316).  `key`
is the process-wide `GHANANLP_API_KEY`; `text` and `language` are the
request fields after their defaults; `net` is the outcome of the
`requests.post` call to the TTS endpoint and `fetch` the outcome the
secondary `requests.get(audio_url)` would produce (its body is the fetched
`response.content` bytes).  A non-dict 200 JSON body makes the Python
`.get` raise an `AttributeError` caught by the outermost handler; its
message is modelled with the quotes of Python's rendering elided.  The
second component is `true` exactly when the outbound TTS call was
issued. -/
def text_to_speech (key text language : String)
    (net : NetOutcome TTSBody) (fetch : NetOutcome (List Nat)) :
    TTSResponse × Bool :=
  if text = "" then
    (.failure "Missing text" none none 400, false)
  else if key = "" then
    (.failure "API key not configured"
      (some "Please add your GhanaNLP API key to .env file") none 401, false)
  else
    match speakerMapGet speaker_map language with
    | none =>
      (.failure "TTS not available"
        (some ("Text-to-speech is not available for " ++ language ++
          ". Supported languages: Twi, Ewe, Kikuyu."))
        (some (language == "en")) 400, false)
    | some speakers =>
      let speaker_id := speakers.headD ""
      match net with
      | .response s body =>
        if s = 200 then
          if audioDetected body then
            (.success (b64encode body.content) "audio/wav" language speaker_id text, true)
          else
            match body.jsonParse with
            | .ok (.dict e) =>
              let audio_data := ttsAudioData e
              let audio_url := ttsAudioUrl e
              if audio_data ≠ "" then
                (.success audio_data "audio/wav" language speaker_id text, true)
              else if audio_url ≠ "" then
                match fetch with
                | .response fs fbody =>
                  if fs = 200 then
                    (.success (b64encode fbody) "audio/wav" language speaker_id text, true)
                  else
                    (.failure "No audio data in response"
                      (some "The TTS API did not return audio data.") none 500, true)
                | .timeout =>
                  (.failure "TTS request timed out"
                    (some "The speech generation took too long. Try with shorter text.")
                    none 504, true)
                | .connFailure =>
                  (.failure "Connection error"
                    (some "Unable to connect to GhanaNLP TTS API.") none 503, true)
                | .exc m =>
                  (.failure m
                    (some "An unexpected error occurred during speech generation")
                    none 500, true)
              else
                (.failure "No audio data in response"
                  (some "The TTS API did not return audio data.") none 500, true)
            | .ok (.str _) =>
              (.failure "str object has no attribute get"
                (some "An unexpected error occurred during speech generation")
                none 500, true)
            | .ok (.other ty _) =>
              (.failure (ty ++ " object has no attribute get")
                (some "An unexpected error occurred during speech generation")
                none 500, true)
            | .error _ =>
              (.failure "No audio data in response"
                (some "The TTS API did not return audio data.") none 500, true)
        else if s = 401 then
          (.failure "Authentication failed"
            (some "Your GhanaNLP API key is invalid or expired.") none 401, true)
        else if s = 403 then
          (.failure "Access forbidden"
            (some "TTS access is not enabled for your API key.") none 403, true)
        else
          (.failure (ttsErrMsg body s)
            (some ("Status code: " ++ toString s)) none s, true)
      | .timeout =>
        (.failure "TTS request timed out"
          (some "The speech generation took too long. Try with shorter text.")
          none 504, true)
      | .connFailure =>
        (.failure "Connection error"
          (some "Unable to connect to GhanaNLP TTS API.") none 503, true)
      | .exc m =>
        (.failure m
          (some "An unexpected error occurred during speech generation")
          none 500, true)

end App

namespace App

/-- Claim C1: for every client-facing language code in the supported set
{en, tw, twi_akuapem, ewe, ga, dagbani, fante, kikuyu}, the language code
mapper returns that code's distinct provider code (en->en, tw->tw,
twi_akuapem->ak, ewe->ee, ga->gaa, dagbani->dag, fante->fat, kikuyu->ki),
and for every code outside that set it returns the input unchanged. -/
theorem C1_langMap_spec :
    langMapGet "en" = "en" ∧ langMapGet "tw" = "tw" ∧
    langMapGet "twi_akuapem" = "ak" ∧ langMapGet "ewe" = "ee" ∧
    langMapGet "ga" = "gaa" ∧ langMapGet "dagbani" = "dag" ∧
    langMapGet "fante" = "fat" ∧ langMapGet "kikuyu" = "ki" ∧
    ∀ c : String,
      c ∉ ["en", "tw", "twi_akuapem", "ewe", "ga", "dagbani", "fante", "kikuyu"] →
      langMapGet c = c := by
  refine ⟨rfl, rfl, rfl, rfl, rfl, rfl, rfl, rfl, ?_⟩
  intro c hc
  simp only [List.mem_cons, List.not_mem_nil, or_false, not_or] at hc
  obtain ⟨h1, h2, h3, h4, h5, h6, h7, h8⟩ := hc
  simp [langMapGet, dGetD, dGet, lang_map,
    Ne.symm h1, Ne.symm h2, Ne.symm h3, Ne.symm h4,
    Ne.symm h5, Ne.symm h6, Ne.symm h7, Ne.symm h8]

/-- Witness for C1: the unmapped code "fr" passes through unchanged. -/
theorem C1_langMap_spec_witness : langMapGet "fr" = "fr" :=
  C1_langMap_spec.2.2.2.2.2.2.2.2 "fr" (by decide)

/-- Claim C2: for every input, translate with empty text fails with
`Missing text` (HTTP 400), and translate with non-empty text but an empty
(unconfigured) API key fails with `API key not configured` (HTTP 401); in
both cases no network call is issued (second component `false`), whatever
the network outcome would have been. -/
theorem C2_translate_preconditions :
    (∀ (key s t : String) (net : NetOutcome RespBody),
      translate_text key "" s t net = (.failure "Missing text" none 400, false)) ∧
    (∀ (text s t : String) (net : NetOutcome RespBody), text ≠ "" →
      translate_text "" text s t net =
        (.failure "API key not configured"
          (some "Please add your GhanaNLP API key to .env file. Get one at https://translation.ghananlp.org")
          401, false)) := by
  constructor
  · intro key s t net
    simp [translate_text]
  · intro text s t net htext
    simp [translate_text, htext]

/-- Witness for C2: concrete instances of both preconditions. -/
theorem C2_translate_preconditions_witness :
    translate_text "k" "" "en" "tw" NetOutcome.timeout =
      (.failure "Missing text" none 400, false) ∧
    translate_text "" "hello" "en" "tw" NetOutcome.timeout =
      (.failure "API key not configured"
        (some "Please add your GhanaNLP API key to .env file. Get one at https://translation.ghananlp.org")
        401, false) :=
  ⟨C2_translate_preconditions.1 "k" "en" "tw" NetOutcome.timeout,
   C2_translate_preconditions.2 "hello" "en" "tw" NetOutcome.timeout (by decide)⟩

/-- Claim C3: with a configured key and non-empty text, a 200 provider
response with body `{"out": "Akwaaba"}` for source=en, target=tw yields
the success payload with `translated_text = "Akwaaba"`, the original text,
both language codes, and the provider identifier; more generally any
parsed JSON value whose extracted translation is non-empty yields the
success payload carrying that extraction, where a dict is read under
`out`, then `translation`, then `translatedText`, and a bare string is
taken as is. -/
theorem C3_translate_success_spec :
    (∀ (key text bt : String), key ≠ "" → text ≠ "" →
      translate_text key text "en" "tw"
          (.response 200 ⟨.ok (.dict [("out", "Akwaaba")]), bt⟩) =
        (.success "Akwaaba" text "en" "tw" "GhanaNLP", true)) ∧
    (∀ (key text s t bt : String) (j : ProviderJson), key ≠ "" → text ≠ "" →
      translatedOf j ≠ "" →
      translate_text key text s t (.response 200 ⟨.ok j, bt⟩) =
        (.success (translatedOf j) text s t "GhanaNLP", true)) ∧
    (∀ (e : List (String × String)) (v : String),
      dGet e "out" = some v → translatedOf (.dict e) = v) ∧
    (∀ (e : List (String × String)) (v : String),
      dGet e "out" = none → dGet e "translation" = some v →
      translatedOf (.dict e) = v) ∧
    (∀ (e : List (String × String)) (v : String),
      dGet e "out" = none → dGet e "translation" = none →
      dGet e "translatedText" = some v → translatedOf (.dict e) = v) ∧
    (∀ s : String, translatedOf (.str s) = s) := by
  refine ⟨?_, ?_, ?_, ?_, ?_, fun s => rfl⟩
  · intro key text bt hkey htext
    simp [translate_text, htext, hkey, translatedOf, dGetD, dGet]
  · intro key text s t bt j hkey htext hj
    simp [translate_text, htext, hkey, hj]
  · intro e v h
    simp [translatedOf, dGetD, h]
  · intro e v h1 h2
    simp [translatedOf, dGetD, h1, h2]
  · intro e v h1 h2 h3
    simp [translatedOf, dGetD, h1, h2, h3]

/-- Witness for C3: the concrete Akwaaba example, the bare-string shape,
and the key-precedence facts at concrete dictionaries. -/
theorem C3_translate_success_spec_witness :
    translate_text "k" "Welcome" "en" "tw"
        (.response 200 ⟨.ok (.dict [("out", "Akwaaba")]), ""⟩) =
      (.success "Akwaaba" "Welcome" "en" "tw" "GhanaNLP", true) ∧
    translate_text "k" "Welcome" "en" "ewe" (.response 200 ⟨.ok (.str "Woezo"), ""⟩) =
      (.success "Woezo" "Welcome" "en" "ewe" "GhanaNLP", true) ∧
    translatedOf (.dict [("translation", "x"), ("out", "y")]) = "y" ∧
    translatedOf (.dict [("translation", "x")]) = "x" ∧
    translatedOf (.dict [("translatedText", "z")]) = "z" :=
  ⟨C3_translate_success_spec.1 "k" "Welcome" "" (by decide) (by decide),
   C3_translate_success_spec.2.1 "k" "Welcome" "en" "ewe" "" (.str "Woezo")
     (by decide) (by decide) (by decide),
   C3_translate_success_spec.2.2.1 [("translation", "x"), ("out", "y")] "y" (by decide),
   C3_translate_success_spec.2.2.2.1 [("translation", "x")] "x" (by decide) (by decide),
   C3_translate_success_spec.2.2.2.2.1 [("translatedText", "z")] "z"
     (by decide) (by decide) (by decide)⟩

/-- Claim C4: with a configured key and non-empty text, a 200 provider
response whose extracted translation is the empty string fails with
`Empty translation received` at HTTP 500, and that failure differs from
the timeout failure (504) and from the connection failure (503). -/
theorem C4_translate_emptyResult_spec :
    ∀ (key text s t bt : String) (j : ProviderJson), key ≠ "" → text ≠ "" →
      translatedOf j = "" →
      translate_text key text s t (.response 200 ⟨.ok j, bt⟩) =
        (.failure "Empty translation received"
          (some "The API returned an empty translation. Please try again.") 500, true) ∧
      (translate_text key text s t (.response 200 ⟨.ok j, bt⟩)).1 ≠
        (translate_text key text s t .timeout).1 ∧
      (translate_text key text s t (.response 200 ⟨.ok j, bt⟩)).1 ≠
        (translate_text key text s t .connFailure).1 := by
  intro key text s t bt j hkey htext hj
  refine ⟨?_, ?_, ?_⟩ <;>
    simp [translate_text, htext, hkey, hj]

/-- Witness for C4: a 200 response with `{"out": ""}` produces the
EmptyResult failure, distinct from both transport failures. -/
theorem C4_translate_emptyResult_spec_witness :
    translate_text "k" "hello" "en" "tw"
        (.response 200 ⟨.ok (.dict [("out", "")]), ""⟩) =
      (.failure "Empty translation received"
        (some "The API returned an empty translation. Please try again.") 500, true) ∧
    (translate_text "k" "hello" "en" "tw"
        (.response 200 ⟨.ok (.dict [("out", "")]), ""⟩)).1 ≠
      (translate_text "k" "hello" "en" "tw" .timeout).1 ∧
    (translate_text "k" "hello" "en" "tw"
        (.response 200 ⟨.ok (.dict [("out", "")]), ""⟩)).1 ≠
      (translate_text "k" "hello" "en" "tw" .connFailure).1 :=
  C4_translate_emptyResult_spec "k" "hello" "en" "tw" "" (.dict [("out", "")])
    (by decide) (by decide) (by decide)

/-- Sanity check of the base64 encoder on the RFC 4648 vectors. -/
theorem b64encode_examples :
    b64encode [77, 97, 110] = "TWFu" ∧
    b64encode [77, 97] = "TWE=" ∧
    b64encode [77] = "TQ==" := by
  refine ⟨?_, ?_, ?_⟩ <;> rfl

/-- Claim C5: with a configured key and non-empty text, requesting a
language outside the TTS-capable set {tw, ewe, kikuyu} fails with
`TTS not available` (HTTP 400) before any network call (second component
`false`, for every network outcome), and the `use_browser_tts` flag of
that failure is `true` exactly when the requested language is `en`. -/
theorem C5_tts_unsupported_spec :
    ∀ (key text language : String) (net : NetOutcome TTSBody)
      (fetch : NetOutcome (List Nat)),
      key ≠ "" → text ≠ "" → language ∉ ["tw", "ewe", "kikuyu"] →
      text_to_speech key text language net fetch =
        (.failure "TTS not available"
          (some ("Text-to-speech is not available for " ++ language ++
            ". Supported languages: Twi, Ewe, Kikuyu."))
          (some (language == "en")) 400, false) ∧
      (ttsBrowserFlag (text_to_speech key text language net fetch).1 = some true ↔
        language = "en") := by
  intro key text language net fetch hkey htext hlang
  simp only [List.mem_cons, List.not_mem_nil, or_false, not_or] at hlang
  obtain ⟨h1, h2, h3⟩ := hlang
  have hmap : speakerMapGet speaker_map language = none := by
    simp [speakerMapGet, speaker_map, Ne.symm h1, Ne.symm h2, Ne.symm h3]
  constructor
  · simp [text_to_speech, htext, hkey, hmap]
  · simp [text_to_speech, htext, hkey, hmap, ttsBrowserFlag]

/-- Witness for C5: the non-TTS language `ga` is rejected with the flag
`false`, and the host language `en` is rejected with the flag `true`. -/
theorem C5_tts_unsupported_spec_witness :
    text_to_speech "k" "hi" "ga" NetOutcome.timeout NetOutcome.timeout =
      (.failure "TTS not available"
        (some "Text-to-speech is not available for ga. Supported languages: Twi, Ewe, Kikuyu.")
        (some false) 400, false) ∧
    (ttsBrowserFlag (text_to_speech "k" "hi" "en" NetOutcome.timeout NetOutcome.timeout).1 =
      some true ↔ "en" = "en") :=
  ⟨(C5_tts_unsupported_spec "k" "hi" "ga" NetOutcome.timeout NetOutcome.timeout
      (by decide) (by decide) (by decide)).1,
   (C5_tts_unsupported_spec "k" "hi" "en" NetOutcome.timeout NetOutcome.timeout
      (by decide) (by decide) (by decide)).2⟩

/-- Claim C6: with a configured key, non-empty text and a TTS-capable
language, a 200 provider response detected as audio (content type
containing `audio` or `octet-stream`, or more than 1000 body bytes)
yields the success payload whose `audio_data` is the base64 encoding of
the response bytes, whose `audio_format` is `audio/wav`, and whose
`speaker_id` is the first entry of that language's speaker list; the
speaker lists are the fixed tables below, so the default speaker is
deterministic. -/
theorem C6_tts_audio_success_spec :
    (∀ (key text language : String) (speakers : List String) (body : TTSBody)
        (fetch : NetOutcome (List Nat)),
      key ≠ "" → text ≠ "" →
      speakerMapGet speaker_map language = some speakers →
      audioDetected body = true →
      text_to_speech key text language (.response 200 body) fetch =
        (.success (b64encode body.content) "audio/wav" language
          (speakers.headD "") text, true)) ∧
    speakerMapGet speaker_map "tw" =
      some ["twi_speaker_4", "twi_speaker_5", "twi_speaker_6",
            "twi_speaker_7", "twi_speaker_8", "twi_speaker_9"] ∧
    speakerMapGet speaker_map "ewe" = some ["ewe_speaker_3", "ewe_speaker_4"] ∧
    speakerMapGet speaker_map "kikuyu" = some ["kikuyu_speaker_1", "kikuyu_speaker_5"] := by
  refine ⟨?_, rfl, rfl, rfl⟩
  intro key text language speakers body fetch hkey htext hmap hdet
  simp [text_to_speech, htext, hkey, hmap, hdet]

/-- Witness for C6: a `tw` request whose 200 response has content type
`audio/wav` and three body bytes succeeds with their base64 encoding and
the first Twi speaker. -/
theorem C6_tts_audio_success_spec_witness :
    text_to_speech "k" "hi" "tw"
        (.response 200 ⟨some "audio/wav", [1, 2, 3], .error "", ""⟩)
        NetOutcome.timeout =
      (.success (b64encode [1, 2, 3]) "audio/wav" "tw"
        (["twi_speaker_4", "twi_speaker_5", "twi_speaker_6",
          "twi_speaker_7", "twi_speaker_8", "twi_speaker_9"].headD "") "hi", true) :=
  C6_tts_audio_success_spec.1 "k" "hi" "tw"
    ["twi_speaker_4", "twi_speaker_5", "twi_speaker_6",
     "twi_speaker_7", "twi_speaker_8", "twi_speaker_9"]
    ⟨some "audio/wav", [1, 2, 3], .error "", ""⟩ NetOutcome.timeout
    (by decide) (by decide) rfl (by decide)

/-- Claim C7: with a configured key, non-empty text (and, for TTS, a
TTS-capable language), a provider response with HTTP status 401 makes the
translate endpoint fail with the extracted upstream error message at
status 401, and the TTS endpoint fail with `Authentication failed` at
status 401: in both cases the 401 is preserved in the client response. -/
theorem C7_auth401_preserved :
    (∀ (key text s t : String) (body : RespBody), key ≠ "" → text ≠ "" →
      translate_text key text s t (.response 401 body) =
        (.failure (translateErrMsg body 401)
          (some "Please check your API key and try again.") 401, true)) ∧
    (∀ (key text language : String) (speakers : List String) (body : TTSBody)
        (fetch : NetOutcome (List Nat)), key ≠ "" → text ≠ "" →
      speakerMapGet speaker_map language = some speakers →
      text_to_speech key text language (.response 401 body) fetch =
        (.failure "Authentication failed"
          (some "Your GhanaNLP API key is invalid or expired.") none 401, true)) := by
  constructor
  · intro key text s t body hkey htext
    simp [translate_text, htext, hkey]
  · intro key text language speakers body fetch hkey htext hmap
    simp [text_to_speech, htext, hkey, hmap]

/-- Witness for C7: concrete 401 responses on both endpoints. -/
theorem C7_auth401_preserved_witness :
    translate_text "k" "hi" "en" "tw" (.response 401 ⟨.error "", "denied"⟩) =
      (.failure (translateErrMsg ⟨.error "", "denied"⟩ 401)
        (some "Please check your API key and try again.") 401, true) ∧
    text_to_speech "k" "hi" "tw" (.response 401 ⟨none, [], .error "", ""⟩)
        NetOutcome.timeout =
      (.failure "Authentication failed"
        (some "Your GhanaNLP API key is invalid or expired.") none 401, true) :=
  ⟨C7_auth401_preserved.1 "k" "hi" "en" "tw" ⟨.error "", "denied"⟩
      (by decide) (by decide),
   C7_auth401_preserved.2 "k" "hi" "tw"
      ["twi_speaker_4", "twi_speaker_5", "twi_speaker_6",
       "twi_speaker_7", "twi_speaker_8", "twi_speaker_9"]
      ⟨none, [], .error "", ""⟩ NetOutcome.timeout
      (by decide) (by decide) rfl⟩

/-- Claim C8: on both endpoints, a provider timeout yields the timeout
failure at status 504, a connection failure yields the connection failure
at status 503, and any unexpected exception yields a failure carrying its
message at status 500; and when the provider does return a response with
a non-200 status, that status is propagated unchanged to the client. -/
theorem C8_fallback_status_spec :
    (∀ (key text s t : String), key ≠ "" → text ≠ "" →
      translate_text key text s t .timeout =
        (.failure "Translation request timed out"
          (some "The server took too long to respond. Please try again.") 504, true) ∧
      translate_text key text s t .connFailure =
        (.failure "Connection error"
          (some "Unable to connect to GhanaNLP API. Please check your internet connection.")
          503, true) ∧
      ∀ m : String, translate_text key text s t (.exc m) =
        (.failure m (some "An unexpected error occurred. Please try again.") 500, true)) ∧
    (∀ (key text s t : String) (st : Nat) (body : RespBody),
      key ≠ "" → text ≠ "" → st ≠ 200 →
      translateStatus (translate_text key text s t (.response st body)).1 = st) ∧
    (∀ (key text language : String) (speakers : List String)
        (fetch : NetOutcome (List Nat)), key ≠ "" → text ≠ "" →
      speakerMapGet speaker_map language = some speakers →
      text_to_speech key text language .timeout fetch =
        (.failure "TTS request timed out"
          (some "The speech generation took too long. Try with shorter text.")
          none 504, true) ∧
      text_to_speech key text language .connFailure fetch =
        (.failure "Connection error"
          (some "Unable to connect to GhanaNLP TTS API.") none 503, true) ∧
      ∀ m : String, text_to_speech key text language (.exc m) fetch =
        (.failure m (some "An unexpected error occurred during speech generation")
          none 500, true)) ∧
    (∀ (key text language : String) (speakers : List String) (st : Nat)
        (body : TTSBody) (fetch : NetOutcome (List Nat)),
      key ≠ "" → text ≠ "" →
      speakerMapGet speaker_map language = some speakers → st ≠ 200 →
      ttsStatus (text_to_speech key text language (.response st body) fetch).1 = st) := by
  refine ⟨?_, ?_, ?_, ?_⟩
  · intro key text s t hkey htext
    refine ⟨?_, ?_, ?_⟩ <;> simp [translate_text, htext, hkey]
  · intro key text s t st body hkey htext hst
    simp [translate_text, htext, hkey, hst, translateStatus]
  · intro key text language speakers fetch hkey htext hmap
    refine ⟨?_, ?_, ?_⟩ <;> simp [text_to_speech, htext, hkey, hmap]
  · intro key text language speakers st body fetch hkey htext hmap hst
    by_cases h401 : st = 401
    · subst h401
      simp [text_to_speech, htext, hkey, hmap, ttsStatus]
    · by_cases h403 : st = 403
      · subst h403
        simp [text_to_speech, htext, hkey, hmap, ttsStatus]
      · simp [text_to_speech, htext, hkey, hmap, hst, h401, h403, ttsStatus]

/-- Witness for C8: concrete timeout, connection-failure, exception and
status-propagation instances on both endpoints. -/
theorem C8_fallback_status_spec_witness :
    translate_text "k" "hi" "en" "tw" .timeout =
      (.failure "Translation request timed out"
        (some "The server took too long to respond. Please try again.") 504, true) ∧
    translateStatus (translate_text "k" "hi" "en" "tw"
      (.response 503 ⟨.error "", ""⟩)).1 = 503 ∧
    text_to_speech "k" "hi" "ewe" .timeout NetOutcome.timeout =
      (.failure "TTS request timed out"
        (some "The speech generation took too long. Try with shorter text.")
        none 504, true) ∧
    ttsStatus (text_to_speech "k" "hi" "ewe"
      (.response 429 ⟨none, [], .error "", ""⟩) NetOutcome.timeout).1 = 429 :=
  ⟨(C8_fallback_status_spec.1 "k" "hi" "en" "tw" (by decide) (by decide)).1,
   C8_fallback_status_spec.2.1 "k" "hi" "en" "tw" 503 ⟨.error "", ""⟩
     (by decide) (by decide) (by decide),
   (C8_fallback_status_spec.2.2.1 "k" "hi" "ewe" ["ewe_speaker_3", "ewe_speaker_4"]
     NetOutcome.timeout (by decide) (by decide) rfl).1,
   C8_fallback_status_spec.2.2.2 "k" "hi" "ewe" ["ewe_speaker_3", "ewe_speaker_4"]
     429 ⟨none, [], .error "", ""⟩ NetOutcome.timeout
     (by decide) (by decide) rfl (by decide)⟩

/-- Claim C9: every success response of the TTS handler carries
`audio_format = "audio/wav"`, whichever reconciliation shape matched
(binary body, inline JSON audio, or audio fetched from a redirect URL)
and whatever the provider's actual content type was. -/
theorem C9_tts_format_always_wav :
    ∀ (key text language : String) (net : NetOutcome TTSBody)
      (fetch : NetOutcome (List Nat)),
      ttsIsSuccess (text_to_speech key text language net fetch).1 = true →
      ttsAudioFormat (text_to_speech key text language net fetch).1 =
        some "audio/wav" := by
  intro key text language net fetch
  unfold text_to_speech
  repeat' split
  all_goals first
  | (simp [ttsIsSuccess, ttsAudioFormat]; done)
  | (dsimp only; split_ifs <;> simp [ttsIsSuccess, ttsAudioFormat])

/-- Witness for C9: a concrete success (inline JSON audio shape) has
format `audio/wav`. -/
theorem C9_tts_format_always_wav_witness :
    ttsAudioFormat (text_to_speech "k" "hi" "kikuyu"
      (.response 200 ⟨some "application/json", [], .ok (.dict [("audio", "QUJD")]), ""⟩)
      NetOutcome.timeout).1 = some "audio/wav" :=
  C9_tts_format_always_wav "k" "hi" "kikuyu"
    (.response 200 ⟨some "application/json", [], .ok (.dict [("audio", "QUJD")]), ""⟩)
    NetOutcome.timeout (by decide)

/-- Claim C10: with a configured key, non-empty text and a TTS-capable
language, when the 200 provider response is not detected as audio, parses
to a JSON object with no inline audio but a non-empty redirect URL, and
the secondary fetch of that URL returns a non-200 status, the handler
fails with `No audio data in response` at HTTP 500 — the secondary
status code does not appear in the client response. -/
theorem C10_tts_redirect_fetch_fail_spec :
    ∀ (key text language : String) (speakers : List String) (body : TTSBody)
      (e : List (String × String)) (fs : Nat) (fbody : List Nat),
      key ≠ "" → text ≠ "" →
      speakerMapGet speaker_map language = some speakers →
      audioDetected body = false →
      body.jsonParse = .ok (.dict e) →
      ttsAudioData e = "" → ttsAudioUrl e ≠ "" → fs ≠ 200 →
      text_to_speech key text language (.response 200 body) (.response fs fbody) =
        (.failure "No audio data in response"
          (some "The TTS API did not return audio data.") none 500, true) := by
  intro key text language speakers body e fs fbody
  intro hkey htext hmap hdet hjson hdata hurl hfs
  simp [text_to_speech, htext, hkey, hmap, hdet, hjson, hdata, hurl, hfs]

/-- Witness for C10: a redirect-only JSON body whose secondary fetch
returns 404 yields the 500 `No audio data in response` failure. -/
theorem C10_tts_redirect_fetch_fail_spec_witness :
    text_to_speech "k" "hi" "tw"
        (.response 200
          ⟨some "application/json", [],
           .ok (.dict [("audio_url", "http://cdn.example/a.wav")]), ""⟩)
        (.response 404 []) =
      (.failure "No audio data in response"
        (some "The TTS API did not return audio data.") none 500, true) :=
  C10_tts_redirect_fetch_fail_spec "k" "hi" "tw"
    ["twi_speaker_4", "twi_speaker_5", "twi_speaker_6",
     "twi_speaker_7", "twi_speaker_8", "twi_speaker_9"]
    ⟨some "application/json", [],
     .ok (.dict [("audio_url", "http://cdn.example/a.wav")]), ""⟩
    [("audio_url", "http://cdn.example/a.wav")] 404 []
    (by decide) (by decide) rfl (by decide) rfl (by decide) (by decide) (by decide)

end App
